import Mathlib

/-!
Verification of the authentication workflow implemented in `auth_framework.py`.

The program is a single-session, three-factor authentication script:
a PIN check with an (intended) rate-limiting lockout, a simulated biometric
scan, and a simulated OTP check, followed by role routing and audit logging
to an append-only text file.

Shallow embedding conventions:
* Console input is modelled as explicit data: the stream of typed PINs is a
  function `Nat → String` (indexed by prompt number), the biometric answer,
  the typed OTP and the forensic-module answers are plain strings.
* `time.time()` is modelled as an oracle `times : Nat → Int` indexed by the
  number of clock reads made so far; `datetime.now().strftime ...` is an
  opaque input string.
* `hashlib.sha256(x).hexdigest()` is modelled as an abstract digest function
  `hash_pin : String → String`: every property of the program depends only on
  equality of digests, never on the digest algorithm itself.
* `random.randint(100000, 999999)` and `uuid.uuid4()` are modelled as oracle
  inputs (`otpRand`, `token`) drawn by the session.
* The audit file `audit_log.txt` is a `List String`, one element per written
  line (`log_to_file` writes `entry + "\n"`, so one call appends one line).
-/

/-- `MAX_ATTEMPTS = 3` (line 44 of the source). -/
def MAX_ATTEMPTS : Nat := 3

/-- `LOCKOUT_DURATION = 30` seconds (line 45); clock values are integers. -/
def LOCKOUT_DURATION : Int := 30

/-- `USER_DB`: the simulated user database mapping usernames to SHA-256
hashed PINs (lines 31–35), with the digest function abstract. Python dict
lookup (`username not in USER_DB`, `USER_DB[username]`) is an `Option`. -/
def USER_DB (hash_pin : String → String) (u : String) : Option String :=
  if u = "admin" then some (hash_pin "4269")
  else if u = "analyst" then some (hash_pin "3141")
  else if u = "guest" then some (hash_pin "1234")
  else none

/-- `USER_ROLES`: role mapping for access control (lines 38–42). -/
def USER_ROLES (u : String) : Option String :=
  if u = "admin" then some "Admin"
  else if u = "analyst" then some "Analyst"
  else if u = "guest" then some "Guest"
  else none

/-- `log_to_file(entry)` (lines 52–55): appends `entry + "\n"` to the audit
file, i.e. exactly one more line at the end of the file. -/
def log_to_file (log : List String) (entry : String) : List String :=
  log ++ [entry]

/-- The `status` string of `log_audit` (line 128). -/
def status_string (success : Bool) : String :=
  if success then "SUCCESS" else "FAILURE"

/-- The audit line built by `log_audit` (line 130):
`f"[AUDIT] {status} login for '{username}' ({role}) at {timestamp} | Token: {token}"`. -/
def audit_entry (username role : String) (success : Bool) (timestamp token : String) : String :=
  "[AUDIT] " ++ status_string success ++ " login for '" ++ username ++ "' (" ++ role ++
    ") at " ++ timestamp ++ " | Token: " ++ token

/-- `log_audit(username, role, success, token)` (lines 126–132): builds the
entry and appends it to the audit file. -/
def log_audit (log : List String) (username role : String) (success : Bool)
    (timestamp token : String) : List String :=
  log_to_file log (audit_entry username role success timestamp token)

/-- Result of one call of `verify_pin`: the returned boolean, how many PIN
prompts were shown, whether the return went through the `Account locked`
branch (line 63–65), and the value of the local `lockout_start` at return
(set only at line 75, immediately before `return False`). -/
structure VerifyResult where
  ok : Bool
  prompts : Nat
  viaLockout : Bool
  lockoutSet : Option Int
deriving Repr, DecidableEq

/-- The `while attempts < MAX_ATTEMPTS` loop of `verify_pin` (lines 62–78),
as structural recursion on `fuel = MAX_ATTEMPTS - attempts`:
* `fuel = 0` is the loop exit (`attempts < MAX_ATTEMPTS` false, line 78);
* the `lockout_start and time.time() - lockout_start < LOCKOUT_DURATION`
  check reads the clock only when `lockout_start` is set (Python `and`
  short-circuits), hence the clock index `t` advances only in that branch;
* a matching PIN returns `True`; otherwise `attempts += 1`, and when
  `attempts >= MAX_ATTEMPTS` (i.e. the remaining fuel is 0) the code sets
  `lockout_start = time.time()` and returns `False` (lines 74–77). -/
def verify_pin_go (hash_pin : String → String) (digest : String) (times : Nat → Int)
    (pins : Nat → String) : Nat → Option Int → Nat → Nat → VerifyResult
  | 0, lockout_start, _, p => VerifyResult.mk false p false lockout_start
  | fuel + 1, lockout_start, t, p =>
    let step : Nat → VerifyResult := fun t1 =>
      if hash_pin (pins p) == digest then
        VerifyResult.mk true (p + 1) false lockout_start
      else
        match fuel with
        | 0 => VerifyResult.mk false (p + 1) false (some (times t1))
        | f + 1 => verify_pin_go hash_pin digest times pins (f + 1) lockout_start t1 (p + 1)
    match lockout_start with
    | some ls =>
      if times t - ls < LOCKOUT_DURATION then VerifyResult.mk false p true lockout_start
      else step (t + 1)
    | none => step t

/-- `verify_pin(username)` (lines 57–78), for the digest `USER_DB[username]`:
local state starts at `attempts = 0`, `lockout_start = None`. -/
def verify_pin (hash_pin : String → String) (digest : String) (times : Nat → Int)
    (pins : Nat → String) : VerifyResult :=
  verify_pin_go hash_pin digest times pins MAX_ATTEMPTS none 0 0

/-- Python `str.lower()` on the embedded strings: character-wise ASCII
lowercasing (the characters compared against `"scan"` are basic latin). -/
def py_lower (s : String) : String :=
  String.mk (s.data.map Char.toLower)

/-- `simulate_biometric()` (lines 80–89): the typed answer `scan` passes
exactly when `scan.lower() != "scan"` is false. -/
def simulate_biometric (scan : String) : Bool :=
  if py_lower scan ≠ "scan" then false else true

/-- `simulate_otp()` (lines 91–102): `otp = str(random.randint(100000, 999999))`
with the drawn number `otpRand` an oracle input; the single typed answer
passes exactly when `entered != otp` is false. -/
def simulate_otp (otpRand : Nat) (entered : String) : Bool :=
  if entered ≠ Nat.repr otpRand then false else true

/-- The line written by `forensic_module()` (line 110). -/
def forensic_entry (evidenceId note : String) : String :=
  "[FORENSIC] Evidence ID: " ++ evidenceId ++ ", Note: " ++ note

/-- `forensic_module()` (lines 104–110): tags evidence and appends one
`[FORENSIC]` line to the audit file. -/
def forensic_module (log : List String) (evidenceId note : String) : List String :=
  log_to_file log (forensic_entry evidenceId note)

/-- `route_to_module(role)` (lines 112–124): only the `Analyst` branch
touches the audit file (through `forensic_module`). -/
def route_to_module (role : String) (evidenceId note : String) (log : List String) :
    List String :=
  if role = "Admin" then log
  else if role = "Analyst" then forensic_module log evidenceId note
  else if role = "Guest" then log
  else log

/-- The three authentication factors, in the order `main` runs them. -/
inductive Factor
  | secret
  | biometric
  | otp
deriving Repr, DecidableEq

/-- All console/oracle inputs one run of `main()` can consume. -/
structure SessionInput where
  username : String
  pins : Nat → String
  times : Nat → Int
  scan : String
  otpRand : Nat
  otpEntered : String
  token : String
  timestamp : String
  evidenceId : String
  custodyNote : String

/-- Observable outcome of one run of `main()`: whether access was granted,
the session token issued (if any), the lines appended to the audit file,
and which factor checks were invoked, in invocation order. -/
structure MainResult where
  granted : Bool
  token : Option String
  log : List String
  invoked : List Factor
deriving Repr, DecidableEq

/-- `main()` (lines 134–161): unknown user returns at line 144 before any
factor; each factor failure returns immediately (lines 146–151); on full
success the role is resolved, `token = str(uuid.uuid4())` is minted,
`log_audit(..., True, token)` runs, and `route_to_module(role)` runs. -/
def mainRun (hash_pin : String → String) (inp : SessionInput) : MainResult :=
  match USER_DB hash_pin inp.username with
  | none => MainResult.mk false none [] []
  | some digest =>
    if (verify_pin hash_pin digest inp.times inp.pins).ok then
      if simulate_biometric inp.scan then
        if simulate_otp inp.otpRand inp.otpEntered then
          let role := (USER_ROLES inp.username).getD ""
          let log1 := log_audit [] inp.username role true inp.timestamp inp.token
          MainResult.mk true (some inp.token)
            (route_to_module role inp.evidenceId inp.custodyNote log1)
            [Factor.secret, Factor.biometric, Factor.otp]
        else MainResult.mk false none [] [Factor.secret, Factor.biometric, Factor.otp]
      else MainResult.mk false none [] [Factor.secret, Factor.biometric]
    else MainResult.mk false none [] [Factor.secret]

/-- Does `s` start with the character pattern `pat`? Used to classify the
lines of the persisted audit file by their leading tag. -/
def startsWithChars (pat s : List Char) : Bool :=
  s.take pat.length == pat

/-- Is `line` an `[AUDIT]` line with the given `status` tag (`"SUCCESS"` or
`"FAILURE"`), as written by `log_audit`? -/
def isAuditLine (status line : String) : Bool :=
  startsWithChars ("[AUDIT] " ++ status).data line.data

/-- Number of `[AUDIT]` lines with the given status tag in the audit file. -/
def auditCount (status : String) (log : List String) : Nat :=
  (log.filter (fun l => isAuditLine status l)).length

/-- Split a character list at the first occurrence of `c`: the characters
before it and the characters after it, or `none` when `c` does not occur. -/
def breakAt (c : Char) : List Char → Option (List Char × List Char)
  | [] => none
  | a :: l =>
    if a = c then some ([], l)
    else (breakAt c l).map (fun pr => (a :: pr.1, pr.2))

/-- Consume the expected literal `p` from the front of `l`, or `none` when
`l` does not start with `p`. -/
def dropLit : List Char → List Char → Option (List Char)
  | [], l => some l
  | _ :: _, [] => none
  | a :: as, b :: l => if a = b then dropLit as l else none

/-- Modelled from the spec: the persisted audit record's textual shape is
"one line per entry, fields: status tag, principal, role, timestamp, token".
This parser recovers the five fields, in exactly that order, from the fixed
delimiters of a persisted line; it is written from the spec's field list and
is compared against the line `log_audit` actually writes. -/
def parseAudit (line : String) : Option (String × String × String × String × String) :=
  (dropLit "[AUDIT] ".data line.data).bind fun l1 =>
  (breakAt ' ' l1).bind fun sl =>
  (dropLit "login for '".data sl.2).bind fun l2 =>
  (breakAt '\'' l2).bind fun ul =>
  (dropLit " (".data ul.2).bind fun l3 =>
  (breakAt ')' l3).bind fun rl =>
  (dropLit " at ".data rl.2).bind fun l4 =>
  (breakAt '|' l4).bind fun tl =>
  (dropLit " Token: ".data tl.2).map fun tokl =>
  (String.mk sl.1, String.mk ul.1, String.mk rl.1, String.mk tl.1.dropLast, String.mk tokl)

/-- A session for the known user `admin` in which every typed PIN is wrong
(`"0000"`), with the digest oracle instantiated as `id`. -/
def wrongPinInput : SessionInput :=
  SessionInput.mk "admin" (fun _ => "0000") (fun _ => 0) "scan" 123456 "123456" "tok-1"
    "2025-01-01 00:00:00" "E1" "N1"

/-- A session for the unknown principal `ghost`. -/
def ghostInput : SessionInput :=
  SessionInput.mk "ghost" (fun _ => "0000") (fun _ => 0) "scan" 123456 "123456" "tok-1"
    "2025-01-01 00:00:00" "E1" "N1"

/-- A session for `admin` in which every factor passes: correct PIN `4269`,
biometric answer `scan`, and the typed OTP equal to the drawn code. -/
def grantedInput : SessionInput :=
  SessionInput.mk "admin" (fun _ => "4269") (fun _ => 0) "scan" 123456 "123456" "tok-1"
    "2025-01-01 00:00:00" "E1" "N1"

/-- A session for `admin` with a correct PIN but a rejected biometric scan. -/
def badScanInput : SessionInput :=
  SessionInput.mk "admin" (fun _ => "4269") (fun _ => 0) "nope" 123456 "123456" "tok-1"
    "2025-01-01 00:00:00" "E1" "N1"

theorem startsWithChars_of_append (p rest : List Char) :
    startsWithChars p (p ++ rest) = true := by
  unfold startsWithChars
  rw [List.take_left]
  exact beq_self_eq_true p

theorem startsWithChars_of_append_ne (p a rest : List Char) (hlen : p.length ≤ a.length)
    (hne : a.take p.length ≠ p) : startsWithChars p (a ++ rest) = false := by
  unfold startsWithChars
  rw [List.take_append_eq_append_take]
  rw [show p.length - a.length = 0 from by omega]
  rw [List.take_zero, List.append_nil]
  exact beq_eq_false_iff_ne.mpr hne

theorem isAuditLine_audit_entry (u role ts tok : String) (success : Bool) :
    isAuditLine (status_string success) (audit_entry u role success ts tok) = true := by
  unfold isAuditLine audit_entry
  have h : ("[AUDIT] " ++ status_string success ++ " login for '" ++ u ++ "' (" ++ role ++
      ") at " ++ ts ++ " | Token: " ++ tok).data =
      ("[AUDIT] " ++ status_string success).data ++
        (" login for '" ++ u ++ "' (" ++ role ++ ") at " ++ ts ++ " | Token: " ++ tok).data := by
    simp [List.append_assoc]
  rw [h]
  exact startsWithChars_of_append _ _

theorem isAuditLine_success_audit_entry (u role ts tok : String) :
    isAuditLine "SUCCESS" (audit_entry u role true ts tok) = true :=
  isAuditLine_audit_entry u role ts tok true

theorem isAuditLine_forensic_success (e n : String) :
    isAuditLine "SUCCESS" (forensic_entry e n) = false := by
  unfold isAuditLine forensic_entry
  have h : ("[FORENSIC] Evidence ID: " ++ e ++ ", Note: " ++ n).data =
      ("[FORENSIC] Evidence ID: " : String).data ++
        (e.data ++ ((", Note: " : String).data ++ n.data)) := by
    simp [List.append_assoc]
  rw [h]
  apply startsWithChars_of_append_ne
  · decide
  · decide

theorem USER_DB_cases (hash_pin : String → String) (u digest : String)
    (h : USER_DB hash_pin u = some digest) :
    u = "admin" ∨ u = "analyst" ∨ u = "guest" := by
  unfold USER_DB at h
  split_ifs at h <;> simp_all

/-- C1: the claim states that a session failing at any stage (secret,
biometric or OTP check) writes exactly one FAILURE audit entry and mints no
token. The code mints no token, but it also writes NO audit entry at all on
failure: every failing branch of `main` returns before `log_audit` is ever
called, although `log_audit` has a dead `FAILURE` branch and the module
docstring promises that all activity is logged. This theorem proves the
actual behaviour: on any staged failure the audit file gains no line
(`log = []`, so in particular zero FAILURE entries) and no token is issued. -/
theorem c1_failed_stage_writes_no_audit_and_no_token (hash_pin : String → String)
    (inp : SessionInput) (digest : String)
    (hU : USER_DB hash_pin inp.username = some digest)
    (hfail : (verify_pin hash_pin digest inp.times inp.pins).ok = false
      ∨ ((verify_pin hash_pin digest inp.times inp.pins).ok = true
          ∧ simulate_biometric inp.scan = false)
      ∨ ((verify_pin hash_pin digest inp.times inp.pins).ok = true
          ∧ simulate_biometric inp.scan = true
          ∧ simulate_otp inp.otpRand inp.otpEntered = false)) :
    (mainRun hash_pin inp).log = [] ∧ auditCount "FAILURE" (mainRun hash_pin inp).log = 0
      ∧ (mainRun hash_pin inp).token = none ∧ (mainRun hash_pin inp).granted = false := by
  unfold mainRun
  rw [hU]
  rcases hfail with h1 | ⟨h1, h2⟩ | ⟨h1, h2, h3⟩
  · simp [h1, auditCount]
  · simp [h1, h2, auditCount]
  · simp [h1, h2, h3, auditCount]

/-- C1 witness: the `admin` session with every PIN typed wrong fails the
secret stage; the run writes no audit line and issues no token. -/
theorem c1_failed_stage_writes_no_audit_and_no_token_witness :
    (mainRun id wrongPinInput).log = [] ∧ auditCount "FAILURE" (mainRun id wrongPinInput).log = 0
      ∧ (mainRun id wrongPinInput).token = none ∧ (mainRun id wrongPinInput).granted = false :=
  c1_failed_stage_writes_no_audit_and_no_token id wrongPinInput "4269" (by decide)
    (Or.inl (by decide))

/-- C2: the claim states that an unknown principal is denied immediately
before the secret check, rate-limiter state is untouched, and exactly one
FAILURE entry is logged. The code denies immediately (no factor is invoked,
so no rate-limit bookkeeping of any kind runs) — but it logs nothing: the
unknown-user branch of `main` returns before any `log_audit` call. This
theorem proves the actual behaviour: the run is denied with no factor
invoked, no token, and an empty audit log. -/
theorem c2_unknown_principal_denied_before_secret_no_audit (hash_pin : String → String)
    (inp : SessionInput) (h : USER_DB hash_pin inp.username = none) :
    mainRun hash_pin inp = MainResult.mk false none [] [] := by
  unfold mainRun
  rw [h]

/-- C2 witness: the session for the unknown principal `ghost` is denied with
no factor invoked and an empty audit log. -/
theorem c2_unknown_principal_denied_before_secret_no_audit_witness :
    mainRun id ghostInput = MainResult.mk false none [] [] :=
  c2_unknown_principal_denied_before_secret_no_audit id ghostInput (by decide)

/-- C3: the claim states that after MAX_ATTEMPTS consecutive failed secret
attempts a principal stays locked out until LOCKOUT_DURATION has elapsed.
In the code all lockout state (`attempts`, `lockout_start`) is local to one
`verify_pin` call: after three wrong PINs the call sets `lockout_start` and
returns, discarding it. This theorem shows a run of three wrong PINs for
`admin` (the lockout timestamp is set at clock value 0 and then thrown
away), and a subsequent fresh secret attempt at clock value 1 — well inside
the 30-second window — that is accepted on its first prompt instead of
being rejected as locked out. -/
theorem c3_lockout_state_not_persistent :
    verify_pin id "4269" (fun _ => 0) (fun _ => "0000") =
      VerifyResult.mk false 3 false (some 0)
    ∧ verify_pin id "4269" (fun _ => 1) (fun _ => "4269") =
      VerifyResult.mk true 1 false none :=
  ⟨rfl, rfl⟩

/-- C5: in every session the factors run in the fixed order secret →
biometric → OTP (the invocation trace is always a prefix of that chain),
a failed secret check stops the chain after the secret factor, and a
rejected biometric stops it after the biometric factor, so the OTP factor
is never invoked after an earlier failure. -/
theorem c5_fixed_factor_order_fail_fast (hash_pin : String → String) (inp : SessionInput) :
    (mainRun hash_pin inp).invoked =
      [Factor.secret, Factor.biometric, Factor.otp].take (mainRun hash_pin inp).invoked.length
    ∧ (∀ digest, USER_DB hash_pin inp.username = some digest →
        (verify_pin hash_pin digest inp.times inp.pins).ok = false →
        (mainRun hash_pin inp).invoked = [Factor.secret])
    ∧ (∀ digest, USER_DB hash_pin inp.username = some digest →
        (verify_pin hash_pin digest inp.times inp.pins).ok = true →
        simulate_biometric inp.scan = false →
        (mainRun hash_pin inp).invoked = [Factor.secret, Factor.biometric]
          ∧ Factor.otp ∉ (mainRun hash_pin inp).invoked) := by
  unfold mainRun
  rcases hU : USER_DB hash_pin inp.username with _ | digest
  · simp
  · cases h1 : (verify_pin hash_pin digest inp.times inp.pins).ok <;>
      cases h2 : simulate_biometric inp.scan <;>
        cases h3 : simulate_otp inp.otpRand inp.otpEntered <;>
          simp_all

/-- C5 witness: for the `admin` session with a correct PIN and a rejected
biometric scan, the trace stops at the biometric factor and the OTP factor
is never invoked. -/
theorem c5_fixed_factor_order_fail_fast_witness :
    (mainRun id badScanInput).invoked = [Factor.secret, Factor.biometric]
      ∧ Factor.otp ∉ (mainRun id badScanInput).invoked :=
  (c5_fixed_factor_order_fail_fast id badScanInput).2.2 "4269" (by decide) (by decide) (by decide)

/-- C4: when all three factors pass (the secret digest matches, the
biometric answer is accepted, the typed OTP equals the drawn code) the run
writes exactly one SUCCESS audit entry — the filter of the audit file on
the SUCCESS tag is a one-element list — and that entry is the `log_audit`
line carrying the freshly minted session token, which is also the token the
run returns; under the freshness of the `uuid4` oracle draw (the minted
token differs from every previously issued token) the token was never
issued before. -/
theorem c4_full_success_single_success_audit_with_fresh_token (hash_pin : String → String)
    (inp : SessionInput) (issued : List String) (digest : String)
    (hU : USER_DB hash_pin inp.username = some digest)
    (h1 : (verify_pin hash_pin digest inp.times inp.pins).ok = true)
    (h2 : simulate_biometric inp.scan = true)
    (h3 : simulate_otp inp.otpRand inp.otpEntered = true)
    (hfresh : inp.token ∉ issued) :
    (mainRun hash_pin inp).log.filter (fun l => isAuditLine "SUCCESS" l) =
      [audit_entry inp.username ((USER_ROLES inp.username).getD "") true inp.timestamp inp.token]
    ∧ (mainRun hash_pin inp).token = some inp.token
    ∧ inp.token ∉ issued := by
  refine ⟨?_, ?_, hfresh⟩
  · unfold mainRun
    rw [hU]
    simp only [h1, h2, h3, if_true]
    unfold log_audit log_to_file
    rcases USER_DB_cases hash_pin inp.username digest hU with hu | hu | hu <;>
      rw [hu] <;>
        simp only [USER_ROLES, route_to_module, forensic_module, log_to_file] <;>
          norm_num <;>
            simp [List.filter, isAuditLine_success_audit_entry, isAuditLine_forensic_success]
  · unfold mainRun
    rw [hU]
    simp [h1, h2, h3]

/-- C4 witness: the fully passing `admin` session writes exactly the one
SUCCESS line carrying the minted token `tok-1`, returns that token, and the
token is not among the previously issued tokens. -/
theorem c4_full_success_single_success_audit_with_fresh_token_witness :
    (mainRun id grantedInput).log.filter (fun l => isAuditLine "SUCCESS" l) =
      [audit_entry grantedInput.username ((USER_ROLES grantedInput.username).getD "")
        true grantedInput.timestamp grantedInput.token]
    ∧ (mainRun id grantedInput).token = some grantedInput.token
    ∧ grantedInput.token ∉ ["tok-0"] :=
  c4_full_success_single_success_audit_with_fresh_token id grantedInput ["tok-0"] "4269"
    (by decide) (by decide) (by decide) (by decide) (by decide)

/-- C6 counterexample: the persisted line is the entry verbatim — recording
the same entry twice yields two indistinguishable lines, so recorded
entries carry no write-time sequence identifier, and in particular no
strictly increasing, gap-free one as the claim states. -/
theorem c6_counterexample_no_sequence_identifier :
    log_to_file (log_to_file [] "[AUDIT] FAILURE login for 'admin' (Admin) at t0 | Token: None")
        "[AUDIT] FAILURE login for 'admin' (Admin) at t0 | Token: None" =
      ["[AUDIT] FAILURE login for 'admin' (Admin) at t0 | Token: None",
       "[AUDIT] FAILURE login for 'admin' (Admin) at t0 | Token: None"] :=
  rfl

/-- C6 amended: each record appends exactly one line at the end of the
audit file and leaves every previously recorded line unchanged, so entries
are observable in exactly the order they were recorded (their position in
the file is an implicit, gap-free sequence number); no sequence identifier
is assigned at write time or carried by the entry itself. -/
theorem c6_amended_append_only_order_preserved (log : List String) (entry : String) :
    (log_to_file log entry).length = log.length + 1
    ∧ (log_to_file log entry).take log.length = log
    ∧ (log_to_file log entry).getLast? = some entry := by
  refine ⟨?_, ?_, ?_⟩
  · simp [log_to_file]
  · unfold log_to_file
    exact List.take_left log [entry]
  · unfold log_to_file
    exact List.getLast?_concat log

/-- C7: for a drawn code in the range of `random.randint(100000, 999999)`,
the OTP factor's single verification attempt passes exactly when the one
user-supplied string equals the decimal representation of the drawn code,
and fails exactly otherwise — the comparison is string equality against the
generated code, with no internal retry (the factor consumes exactly one
typed answer). -/
theorem c7_otp_single_attempt_exact_string_match (otpRand : Nat) (entered : String)
    (h1 : 100000 ≤ otpRand) (h2 : otpRand ≤ 999999) :
    (simulate_otp otpRand entered = true ↔ entered = Nat.repr otpRand)
    ∧ (simulate_otp otpRand entered = false ↔ entered ≠ Nat.repr otpRand) := by
  unfold simulate_otp
  constructor <;> split <;> simp_all

/-- C7 witness: for the drawn code 123456 the exact string `123456` passes;
the numerically equal but textually different `0123456` fails, showing the
comparison is string equality. -/
theorem c7_otp_single_attempt_exact_string_match_witness :
    ((simulate_otp 123456 "123456" = true ↔ "123456" = Nat.repr 123456)
      ∧ (simulate_otp 123456 "123456" = false ↔ "123456" ≠ Nat.repr 123456))
    ∧ simulate_otp 123456 "0123456" = false :=
  ⟨c7_otp_single_attempt_exact_string_match 123456 "123456" (by decide) (by decide), by decide⟩

theorem dropLit_append (p l : List Char) : dropLit p (p ++ l) = some l := by
  induction p with
  | nil => rfl
  | cons a as ih => simp [dropLit, ih]

theorem breakAt_append (c : Char) (s t : List Char) (h : c ∉ s) :
    breakAt c (s ++ c :: t) = some (s, t) := by
  induction s with
  | nil => simp [breakAt]
  | cons a as ih =>
    simp only [List.mem_cons, not_or] at h
    have hac : ¬ a = c := fun hh => h.1 hh.symm
    simp only [List.cons_append, breakAt, if_neg hac, List.append_eq, ih h.2]
    rfl

theorem breakAt_append_pad (c x : Char) (s t : List Char) (hx : x ≠ c) (h : c ∉ s) :
    breakAt c (s ++ x :: c :: t) = some (s ++ [x], t) := by
  rw [List.append_cons s x (c :: t)]
  refine breakAt_append c (s ++ [x]) t ?_
  simp only [List.mem_append, List.mem_singleton]
  exact not_or.mpr ⟨h, fun hc => hx hc.symm⟩

/-- C8: every persisted audit record is one line (each `log_to_file` call
appends the entry as exactly one line), and its fields stand in the fixed
order status tag, principal, role, timestamp, token: the delimiter-driven
parser written from the spec's field list recovers exactly the five values
`log_audit` formatted in, in that order, whenever the principal contains no
quote character, the role no closing parenthesis and the timestamp no pipe
(true of the seeded users, roles and `strftime` timestamps). -/
theorem c8_audit_line_fixed_field_order (username role timestamp token : String)
    (success : Bool)
    (hu : ('\'' : Char) ∉ username.data) (hr : (')' : Char) ∉ role.data)
    (ht : ('|' : Char) ∉ timestamp.data) :
    parseAudit (audit_entry username role success timestamp token) =
      some (status_string success, username, role, timestamp, token) := by
  cases success <;>
    simp [parseAudit, audit_entry, status_string, dropLit, breakAt,
      breakAt_append, dropLit_append, breakAt_append_pad, hu, hr, ht]

/-- C8 witness: parsing the success line for `admin` recovers the five
fields in the order status, principal, role, timestamp, token. -/
theorem c8_audit_line_fixed_field_order_witness :
    parseAudit (audit_entry "admin" "Admin" true "2025-01-01 00:00:00" "tok-1") =
      some (status_string true, "admin", "Admin", "2025-01-01 00:00:00", "tok-1") :=
  c8_audit_line_fixed_field_order "admin" "Admin" "2025-01-01 00:00:00" "tok-1" true
    (by decide) (by decide) (by decide)

/-- C9: within one invocation of `verify_pin` the locked-out branch is
unreachable — the loop is entered with `lockout_start = None` and the
variable is only assigned immediately before a `return` — so the call never
returns through the `Account locked` branch, shows at most `MAX_ATTEMPTS`
PIN prompts, and returns `True` exactly when one of the prompted PINs
hashes to the stored digest. -/
theorem c9_verify_pin_lockout_branch_unreachable (hash_pin : String → String)
    (digest : String) (times : Nat → Int) (pins : Nat → String) :
    (verify_pin hash_pin digest times pins).viaLockout = false
    ∧ (verify_pin hash_pin digest times pins).prompts ≤ MAX_ATTEMPTS
    ∧ ((verify_pin hash_pin digest times pins).ok = true ↔
        ∃ i < (verify_pin hash_pin digest times pins).prompts, hash_pin (pins i) = digest) := by
  unfold verify_pin MAX_ATTEMPTS
  cases h0 : hash_pin (pins 0) == digest <;>
    cases h1 : hash_pin (pins 1) == digest <;>
      cases h2 : hash_pin (pins 2) == digest <;>
        simp_all [verify_pin_go, beq_iff_eq]
  · intro x hx
    interval_cases x <;> assumption
  · exact ⟨2, by omega, h2⟩
  · exact ⟨1, by omega, h1⟩
  · exact ⟨1, by omega, h1⟩

theorem toNat_ofNat_of_valid (n : Nat) (h : n.isValidChar) : (Char.ofNat n).toNat = n := by
  rw [Char.ofNat, dif_pos h]
  rfl

theorem char_eq_of_toNat_eq {c d : Char} (h : c.toNat = d.toNat) : c = d := by
  apply Char.eq_of_val_eq
  apply UInt32.eq_of_toBitVec_eq
  apply BitVec.eq_of_toNat_eq
  exact h

theorem toLower_eq_iff_pair (c lo up : Char) (h1 : 65 ≤ up.toNat) (h2 : up.toNat ≤ 90)
    (h3 : lo.toNat = up.toNat + 32) : (Char.toLower c = lo ↔ (c = lo ∨ c = up)) := by
  constructor
  · intro h
    unfold Char.toLower at h
    by_cases hr : 65 ≤ c.toNat ∧ c.toNat ≤ 90
    · rw [if_pos hr] at h
      right
      have hv : (c.toNat + 32).isValidChar := Or.inl (by omega)
      have h' := congrArg Char.toNat h
      rw [toNat_ofNat_of_valid _ hv] at h'
      exact char_eq_of_toNat_eq (by omega)
    · rw [if_neg hr] at h
      exact Or.inl h
  · rintro (rfl | rfl)
    · unfold Char.toLower
      rw [if_neg]
      omega
    · unfold Char.toLower
      rw [if_pos ⟨h1, h2⟩, ← h3]
      exact Char.ofNat_toNat lo

theorem toLower_s (c : Char) : (Char.toLower c = 's' ↔ (c = 's' ∨ c = 'S')) :=
  toLower_eq_iff_pair c 's' 'S' (by decide) (by decide) (by decide)

theorem toLower_c (c : Char) : (Char.toLower c = 'c' ↔ (c = 'c' ∨ c = 'C')) :=
  toLower_eq_iff_pair c 'c' 'C' (by decide) (by decide) (by decide)

theorem toLower_a (c : Char) : (Char.toLower c = 'a' ↔ (c = 'a' ∨ c = 'A')) :=
  toLower_eq_iff_pair c 'a' 'A' (by decide) (by decide) (by decide)

theorem toLower_n (c : Char) : (Char.toLower c = 'n' ↔ (c = 'n' ∨ c = 'N')) :=
  toLower_eq_iff_pair c 'n' 'N' (by decide) (by decide) (by decide)

/-- C10: the biometric factor accepts its capture input case-insensitively:
the scan passes exactly when the input is four characters long and each
character is the corresponding letter of `scan` in either case (16 strings
such as `scan`, `SCAN`, `Scan`, `sCaN`); every other input is rejected. -/
theorem c10_biometric_scan_case_insensitive (scan : String) :
    (simulate_biometric scan = true ↔
      ∃ c1 c2 c3 c4, scan.data = [c1, c2, c3, c4]
        ∧ (c1 = 's' ∨ c1 = 'S') ∧ (c2 = 'c' ∨ c2 = 'C')
        ∧ (c3 = 'a' ∨ c3 = 'A') ∧ (c4 = 'n' ∨ c4 = 'N')) := by
  have hiff : simulate_biometric scan = true ↔ py_lower scan = "scan" := by
    unfold simulate_biometric
    split
    · simp_all
    · simp_all
  rw [hiff]
  have hdata : py_lower scan = "scan" ↔ scan.data.map Char.toLower = ['s', 'c', 'a', 'n'] := by
    unfold py_lower
    constructor
    · intro h
      have := congrArg String.data h
      simpa using this
    · intro h
      apply String.ext
      simpa using h
  rw [hdata]
  constructor
  · intro h
    rcases hd : scan.data with _ | ⟨c1, _ | ⟨c2, _ | ⟨c3, _ | ⟨c4, _ | ⟨c5, rest⟩⟩⟩⟩⟩ <;>
      rw [hd] at h <;> simp at h
    obtain ⟨h1, h2, h3, h4⟩ := h
    exact ⟨c1, c2, c3, c4, rfl, (toLower_s c1).mp h1, (toLower_c c2).mp h2,
      (toLower_a c3).mp h3, (toLower_n c4).mp h4⟩
  · rintro ⟨d1, d2, d3, d4, heq, hs, hc, ha, hn⟩
    rw [heq]
    simp only [List.map_cons, List.map_nil, List.cons.injEq, and_true]
    exact ⟨(toLower_s d1).mpr hs, (toLower_c d2).mpr hc,
      (toLower_a d3).mpr ha, (toLower_n d4).mpr hn⟩
